import Mathlib

/-!
Shallow embedding of the kairos build controller
(`api/v1alpha1/build_types.go` and `controllers/build_controller.go`).

The controller's interactions with the object store and the HTTP client are
made explicit: each reconcile invocation receives an environment holding the
result of the job lookup, the outcome the callback endpoint would return if
the callback is dispatched, and the current wall-clock time (times are
modelled as `Nat`).  Store writes and deletes are modelled as succeeding:
per the design, update conflicts only trigger a redelivery that re-runs the
whole reconcile, so a single-invocation model with successful writes captures
the state-machine logic the claims are about.
-/

namespace Kairos

/-- BuildPhase is a string type in Go (`build_types.go`); a freshly created
Build has the zero value `""` as its phase. -/
abbrev BuildPhase := String

def buildPhasePending : BuildPhase := "Pending"

def buildPhaseRunning : BuildPhase := "Running"

def buildPhaseSucceeded : BuildPhase := "Succeeded"

def buildPhaseFailed : BuildPhase := "Failed"

/-- CallbackSpec from `build_types.go`. -/
structure CallbackSpec where
  url : String
  authToken : String
deriving DecidableEq, Repr

/-- BuildSpec from `build_types.go`. -/
structure BuildSpec where
  contextUrl : String
  revision : String
  dockerfile : String
  outputImage : String
  pushSecret : String
  callback : Option CallbackSpec
deriving DecidableEq, Repr

/-- BuildStatus from `build_types.go`; `completionTime` is a nullable time. -/
structure BuildStatus where
  phase : BuildPhase
  jobRef : String
  callbackStatus : String
  completionTime : Option Nat
deriving DecidableEq, Repr

/-- Zero value of BuildStatus: the status of a freshly submitted Build. -/
def initialStatus : BuildStatus :=
  { phase := "", jobRef := "", callbackStatus := "", completionTime := none }

/-- Observed counters of the execution job (`job.Status` fields read by the
controller): `Succeeded`, `Failed` and the nullable `CompletionTime`. -/
structure JobCounters where
  succeeded : Nat
  failed : Nat
  completionTime : Option Nat
deriving DecidableEq, Repr

/-- Result of the job lookup in step 2 of Reconcile: the job is absent
(`IsNotFound`), present with the given counters, or the lookup itself
errored (line 78 of `build_controller.go`). -/
inductive JobLookup where
  | notFound : JobLookup
  | found : JobCounters → JobLookup
  | lookupError : JobLookup
deriving DecidableEq, Repr

/-- Environment of one reconcile invocation: what the store and the callback
endpoint would answer, and the current time. -/
structure ReconcileEnv where
  jobLookup : JobLookup
  cbSuccess : Bool
  now : Nat
deriving DecidableEq, Repr

/-- Volume mount of a container (the fields `constructJob` sets). -/
structure VolumeMount where
  name : String
  mountPath : String
  subPath : String
  readOnly : Bool
deriving DecidableEq, Repr

/-- Environment variable of a container. -/
structure EnvEntry where
  name : String
  value : String
deriving DecidableEq, Repr

/-- Container of the job's pod template (the fields `constructJob` sets). -/
structure Container where
  name : String
  image : String
  command : List String
  privileged : Bool
  env : List EnvEntry
  volumeMounts : List VolumeMount
  workingDir : String
deriving DecidableEq, Repr

/-- Volume source: `constructJob` uses only EmptyDir and Secret volumes. -/
inductive VolumeSource where
  | emptyDir : VolumeSource
  | secret : String → VolumeSource
deriving DecidableEq, Repr

/-- Volume of the job's pod template. -/
structure Volume where
  name : String
  source : VolumeSource
deriving DecidableEq, Repr

/-- Execution-job specification as `constructJob` builds it: name, namespace,
restart policy, init containers, containers, volumes and the owner reference
set by `SetControllerReference` (the owning Build's name). -/
structure JobSpecModel where
  name : String
  namespaceName : String
  restartPolicyNever : Bool
  initContainers : List Container
  containers : List Container
  volumes : List Volume
  ownerRef : String
deriving DecidableEq, Repr

/-- Shell script the build container runs, from the format string at lines
151-158 of `build_controller.go`; the arguments are OutputImage, ContextUrl,
the (defaulted) dockerfile, OutputImage, OutputImage. -/
def buildScript (spec : BuildSpec) (dockerfile : String) : String :=
  "\nset -e\necho \"Building image " ++ spec.outputImage ++ " from " ++
    spec.contextUrl ++ "...\"\nbuildah bud --storage-driver=vfs -f " ++
    dockerfile ++ " -t " ++ spec.outputImage ++
    " .\necho \"Pushing image...\"\nbuildah push --storage-driver=vfs " ++
    spec.outputImage ++ "\necho \"Done!\"\n"

/-- Embedding of `BuildReconciler.constructJob` (lines 132-252).  The local
`_revision` mirrors the source exactly: the default is computed (lines
136-140) but the variable is never used again, so the constructed job does
not depend on it.  The pod has a `git-clone` init container whose command
names only the context URL, a privileged `buildah` container running
`buildScript`, two EmptyDir volumes, and, when a push secret is set, a
read-only secret mount appended to the buildah container. -/
def constructJob (name ns : String) (spec : BuildSpec) : JobSpecModel :=
  let jobName := "build-" ++ name
  let _revision := if spec.revision = "" then "master" else spec.revision
  let dockerfile := if spec.dockerfile = "" then "Dockerfile" else spec.dockerfile
  let script := buildScript spec dockerfile
  let baseMounts : List VolumeMount :=
    [{ name := "workspace", mountPath := "/workspace",
       subPath := "", readOnly := false },
     { name := "containers-storage", mountPath := "/var/lib/containers",
       subPath := "", readOnly := false }]
  let mounts :=
    if spec.pushSecret = "" then baseMounts
    else baseMounts ++
      [{ name := "registry-auth", mountPath := "/root/.docker/config.json",
         subPath := ".dockerconfigjson", readOnly := true }]
  let baseVolumes : List Volume :=
    [{ name := "workspace", source := VolumeSource.emptyDir },
     { name := "containers-storage", source := VolumeSource.emptyDir }]
  let volumes :=
    if spec.pushSecret = "" then baseVolumes
    else baseVolumes ++
      [{ name := "registry-auth", source := VolumeSource.secret spec.pushSecret }]
  { name := jobName,
    namespaceName := ns,
    restartPolicyNever := true,
    initContainers :=
      [{ name := "git-clone", image := "alpine/git",
         command := ["git", "clone", spec.contextUrl, "/workspace"],
         privileged := false, env := [],
         volumeMounts :=
           [{ name := "workspace", mountPath := "/workspace",
              subPath := "", readOnly := false }],
         workingDir := "" }],
    containers :=
      [{ name := "buildah", image := "quay.io/buildah/stable",
         command := ["/bin/sh", "-c", script],
         privileged := true,
         env := [{ name := "STORAGE_DRIVER", value := "vfs" }],
         volumeMounts := mounts,
         workingDir := "/workspace" }],
    volumes := volumes,
    ownerRef := name }

/-- Target phase computed from the observed job counters (lines 83-92):
`Succeeded` when the succeeded count is positive, else `Failed` when the
failed count is positive, else the stored phase is kept. -/
def targetPhase (st : BuildStatus) (js : JobCounters) : BuildPhase :=
  if 0 < js.succeeded then buildPhaseSucceeded
  else if 0 < js.failed then buildPhaseFailed
  else st.phase

/-- Completion time computed alongside `targetPhase` (lines 84-92): the
job-reported time in the succeeded branch, the current time in the failed
branch, nil otherwise. -/
def targetCompletionTime (js : JobCounters) (now : Nat) : Option Nat :=
  if 0 < js.succeeded then js.completionTime
  else if 0 < js.failed then some now
  else none

/-- The phase the invocation computes from the job it observed: defined only
when the lookup found a job. -/
def computedPhase (st : BuildStatus) (env : ReconcileEnv) : Option BuildPhase :=
  match env.jobLookup with
  | JobLookup.found js => some (targetPhase st js)
  | _ => none

/-- Everything one reconcile invocation did: the stored BuildRequest after
the invocation (`none` when it was deleted), the job submitted to the store
(if any), the callback dispatch and its outcome (`none` when no dispatch
happened), whether the record was deleted, whether an error was returned,
and whether a prompt requeue was requested. -/
structure ReconcileOutcome where
  build : Option BuildStatus
  createdJob : Option JobSpecModel
  callbackResult : Option Bool
  deleted : Bool
  isError : Bool
  requeue : Bool
deriving DecidableEq, Repr

/-- Embedding of `BuildReconciler.Reconcile` (lines 38-130) for a Build that
exists, named `name` in namespace `ns` with spec `spec` and stored status
`st`.  Mirrors the source: job lookup error returns the error; job absent
stops on a terminal phase and otherwise creates the job and sets
Running/jobRef with a requeue; job present computes the target phase and
completion time, and on a phase change persists them, dispatches the
configured callback, records the callback status and deletes the record
exactly on the succeeded-with-successful-callback path. -/
def reconcile (name ns : String) (spec : BuildSpec) (st : BuildStatus)
    (env : ReconcileEnv) : ReconcileOutcome :=
  match env.jobLookup with
  | JobLookup.lookupError =>
      { build := some st, createdJob := none, callbackResult := none,
        deleted := false, isError := true, requeue := false }
  | JobLookup.notFound =>
      if st.phase = buildPhaseSucceeded ∨ st.phase = buildPhaseFailed then
        { build := some st, createdJob := none, callbackResult := none,
          deleted := false, isError := false, requeue := false }
      else
        { build := some { st with phase := buildPhaseRunning,
                                  jobRef := "build-" ++ name },
          createdJob := some (constructJob name ns spec),
          callbackResult := none,
          deleted := false, isError := false, requeue := true }
  | JobLookup.found js =>
      let newPhase := targetPhase st js
      let completionTime := targetCompletionTime js env.now
      if newPhase ≠ st.phase then
        let st1 := { st with phase := newPhase, completionTime := completionTime }
        if (newPhase = buildPhaseSucceeded ∨ newPhase = buildPhaseFailed) ∧
            spec.callback.isSome = true then
          if env.cbSuccess then
            if newPhase = buildPhaseSucceeded then
              { build := none, createdJob := none, callbackResult := some true,
                deleted := true, isError := false, requeue := false }
            else
              { build := some { st1 with callbackStatus := "Success" },
                createdJob := none, callbackResult := some true,
                deleted := false, isError := false, requeue := false }
          else
            { build := some { st1 with callbackStatus := "Failed" },
              createdJob := none, callbackResult := some false,
              deleted := false, isError := false, requeue := false }
        else
          { build := some st1, createdJob := none, callbackResult := none,
            deleted := false, isError := false, requeue := false }
      else
        { build := some st, createdJob := none, callbackResult := none,
          deleted := false, isError := false, requeue := false }

/-- Statuses reachable by repeated reconcile invocations from a fresh Build,
over arbitrary sequences of observed job states, callback outcomes and
clock readings. -/
inductive Reachable (name ns : String) (spec : BuildSpec) : BuildStatus → Prop
  | init : Reachable name ns spec initialStatus
  | next (st st1 : BuildStatus) (env : ReconcileEnv) :
      Reachable name ns spec st →
      (reconcile name ns spec st env).build = some st1 →
      Reachable name ns spec st1

/-- Payload of the callback POST (lines 255-261): name, namespace, phase,
output image and a timestamp. -/
structure CallbackPayload where
  name : String
  namespaceName : String
  phase : BuildPhase
  image : String
  timestamp : Nat
deriving DecidableEq, Repr

/-- The HTTP request `sendCallback` builds: method, URL, headers, JSON
payload and the client timeout in seconds. -/
structure HttpRequestModel where
  method : String
  url : String
  headers : List (String × String)
  payload : CallbackPayload
  timeoutSeconds : Nat
deriving DecidableEq, Repr

/-- What the HTTP layer would answer.  `newRequestOk` is the verdict of the
URL parser inside `http.NewRequest` (line 268) on the configured callback
URL: the parser lives outside this repository, so its verdict on the given
URL is an oracle input (it rejects, for example, a URL with no scheme
before "://", a bad percent-escape or an embedded control character).
`doResult` models `client.Do`: `none` a transport error (network failure
or timeout); `some c` a response with status code `c`. -/
structure HttpEnv where
  newRequestOk : Bool
  doResult : Option Nat
  now : Nat
deriving DecidableEq, Repr

/-- What one `sendCallback` invocation did: the request it built (`none`
when request construction already failed), how many HTTP attempts it made,
and whether it returned nil (success) or an error. -/
structure CallbackOutcome where
  request : Option HttpRequestModel
  attempts : Nat
  ok : Bool
deriving DecidableEq, Repr

/-- The request `sendCallback` builds once `http.NewRequest` succeeded
(lines 268-278): a POST to the configured URL with a Content-Type header,
an Authorization bearer header exactly when the auth token is non-empty,
and a client timeout of 10 seconds. -/
def builtRequest (name ns : String) (spec : BuildSpec) (cb : CallbackSpec)
    (phase : BuildPhase) (now : Nat) : HttpRequestModel :=
  let headers0 : List (String × String) :=
    [("Content-Type", "application/json")]
  { method := "POST", url := cb.url,
    headers :=
      if cb.authToken = "" then headers0
      else headers0 ++ [("Authorization", "Bearer " ++ cb.authToken)],
    payload := { name := name, namespaceName := ns, phase := phase,
                 image := spec.outputImage, timestamp := now },
    timeoutSeconds := 10 }

/-- Embedding of `BuildReconciler.sendCallback` (lines 254-290).  The JSON
marshalling of the fixed-shape payload map cannot fail; `http.NewRequest`
(line 268) fails exactly when the URL parser rejects the configured
callback URL, and then the function returns that error with no request
built and no HTTP attempt made.  Otherwise the headers and the 10-second
client are set up as in `builtRequest`, exactly one `client.Do` attempt is
made, and the function returns an error exactly when the exchange errors
or the status code is outside [200, 300). -/
def sendCallback (name ns : String) (spec : BuildSpec) (cb : CallbackSpec)
    (phase : BuildPhase) (env : HttpEnv) : CallbackOutcome :=
  if env.newRequestOk = false then
    { request := none, attempts := 0, ok := false }
  else
    let req := builtRequest name ns spec cb phase env.now
    match env.doResult with
    | none => { request := some req, attempts := 1, ok := false }
    | some code =>
        if code < 200 ∨ 300 ≤ code then
          { request := some req, attempts := 1, ok := false }
        else
          { request := some req, attempts := 1, ok := true }

/-- Helper for substring checks: does the second list start with the
first? -/
def startsWithChars : List Char → List Char → Bool
  | [], _ => true
  | _ :: _, [] => false
  | a :: as, b :: bs => a = b && startsWithChars as bs

/-- Helper for substring checks: does the pattern occur somewhere in the
list? -/
def hasSubChars (pat : List Char) : List Char → Bool
  | [] => pat.isEmpty
  | b :: bs => startsWithChars pat (b :: bs) || hasSubChars pat bs

/-- True when `pat` occurs as a contiguous substring of `t`. -/
def strContainsSub (t pat : String) : Bool :=
  hasSubChars pat.data t.data

/-- Every string `constructJob` places in a container. -/
def containerStrings (c : Container) : List String :=
  [c.name, c.image, c.workingDir] ++ c.command ++
    c.env.map (fun e => e.name ++ "=" ++ e.value) ++
    c.volumeMounts.map (fun m => m.name ++ ":" ++ m.mountPath ++ ":" ++ m.subPath)

/-- Every string a volume holds. -/
def volumeStrings (v : Volume) : List String :=
  match v.source with
  | VolumeSource.emptyDir => [v.name]
  | VolumeSource.secret s => [v.name, s]

/-- Every string anywhere in a constructed job specification. -/
def jobStrings (j : JobSpecModel) : List String :=
  [j.name, j.namespaceName, j.ownerRef] ++
    ((j.initContainers ++ j.containers).map containerStrings).flatten ++
    (j.volumes.map volumeStrings).flatten

/-- True when some string of the job specification contains `pat`. -/
def jobMentions (j : JobSpecModel) (pat : String) : Bool :=
  (jobStrings j).any (fun t => strContainsSub t pat)

/-- Concrete build spec used by the witnesses and counterexamples: no
revision, no dockerfile path, no push secret, no callback. -/
def demoSpec : BuildSpec :=
  { contextUrl := "https://example.com/repo.git", revision := "",
    dockerfile := "", outputImage := "registry.example.com/app:v1",
    pushSecret := "", callback := none }

/-- Concrete callback configuration used by the witnesses. -/
def demoCallback : CallbackSpec :=
  { url := "https://hooks.example.com/build", authToken := "tok123" }

/-- The demo spec with the callback configured. -/
def demoSpecCb : BuildSpec :=
  { demoSpec with callback := some demoCallback }

/-- Status after the job was created for the demo build. -/
def demoRunning : BuildStatus :=
  { phase := buildPhaseRunning, jobRef := "build-demo",
    callbackStatus := "", completionTime := none }

/-- Status after the demo build was observed succeeded at time 5. -/
def demoSucceeded : BuildStatus :=
  { phase := buildPhaseSucceeded, jobRef := "build-demo",
    callbackStatus := "", completionTime := some 5 }

/-- Status after the demo build was observed succeeded by a job that
reported no completion time. -/
def demoSucceededNoTime : BuildStatus :=
  { phase := buildPhaseSucceeded, jobRef := "build-demo",
    callbackStatus := "", completionTime := none }

/-- Status after the demo build regressed to Failed at time 9. -/
def demoFailed : BuildStatus :=
  { phase := buildPhaseFailed, jobRef := "build-demo",
    callbackStatus := "", completionTime := some 9 }

/-- Environment in which the job lookup reports NotFound. -/
def envNotFound : ReconcileEnv :=
  { jobLookup := JobLookup.notFound, cbSuccess := false, now := 1 }

/-- Environment in which the job reports one succeeded pod at time 5. -/
def envJobSucceeded : ReconcileEnv :=
  { jobLookup := JobLookup.found
      { succeeded := 1, failed := 0, completionTime := some 5 },
    cbSuccess := false, now := 3 }

/-- Environment in which the job reports one succeeded pod and no
completion time. -/
def envJobSucceededNoTime : ReconcileEnv :=
  { jobLookup := JobLookup.found
      { succeeded := 1, failed := 0, completionTime := none },
    cbSuccess := false, now := 3 }

/-- Environment in which the job reports one failed pod (and no succeeded
pod) at current time 9. -/
def envJobFailed : ReconcileEnv :=
  { jobLookup := JobLookup.found
      { succeeded := 0, failed := 1, completionTime := none },
    cbSuccess := false, now := 9 }

/-- Environment in which the job reports one failed pod together with a
job-reported completion time 111, the clock reading 222. -/
def envJobFailedWithTime : ReconcileEnv :=
  { jobLookup := JobLookup.found
      { succeeded := 0, failed := 1, completionTime := some 111 },
    cbSuccess := false, now := 222 }

/-- Callback configuration whose URL the parser inside `http.NewRequest`
rejects (no scheme before "://"). -/
def badUrlCallback : CallbackSpec :=
  { url := "://hooks.example.com/build", authToken := "" }

/-- HTTP environment in which `http.NewRequest` rejects the configured URL
while the endpoint, had it been reached, would have answered 200. -/
def envNewRequestFails : HttpEnv :=
  { newRequestOk := false, doResult := some 200, now := 7 }

/-- HTTP environment in which request construction succeeds and the
endpoint answers 204. -/
def envHttpOk : HttpEnv :=
  { newRequestOk := true, doResult := some 204, now := 7 }

/-- Environment in which the job reports success and the callback endpoint
would answer failure. -/
def envJobSucceededCbFails : ReconcileEnv :=
  { jobLookup := JobLookup.found
      { succeeded := 1, failed := 0, completionTime := some 5 },
    cbSuccess := false, now := 3 }

/-- Helper: the four phase-string constants are pairwise distinct and
non-empty. -/
theorem phase_constants_distinct :
    buildPhaseSucceeded ≠ buildPhaseFailed ∧
    buildPhaseSucceeded ≠ buildPhaseRunning ∧
    buildPhaseFailed ≠ buildPhaseRunning ∧
    buildPhaseSucceeded ≠ "" ∧ buildPhaseFailed ≠ "" ∧
    buildPhaseRunning ≠ "" := by
  refine ⟨?_, ?_, ?_, ?_, ?_, ?_⟩ <;> decide

/-- C1: one reconcile invocation deletes the BuildRequest record if and only
if the phase computed from the observed job is Succeeded, a callback is
configured in the spec, and the callback dispatch happened and returned
success; in every other combination the record is retained. -/
theorem c1_delete_iff_succeeded_callback (name ns : String) (spec : BuildSpec)
    (st : BuildStatus) (env : ReconcileEnv) :
    (reconcile name ns spec st env).deleted = true ↔
      computedPhase st env = some buildPhaseSucceeded ∧
      spec.callback.isSome = true ∧
      (reconcile name ns spec st env).callbackResult = some true := by
  obtain ⟨jl, cb, now⟩ := env
  cases jl with
  | lookupError => simp [reconcile, computedPhase]
  | notFound =>
      simp only [reconcile, computedPhase]
      split <;> simp
  | found js =>
      simp only [reconcile, computedPhase]
      split_ifs with h1 h2 h3 h4 <;> simp_all

/-- C3: when no execution job exists and the stored phase is terminal, the
reconcile stops with the BuildRequest unchanged, creates no job and returns
no error; and a job is only ever created when the lookup reported NotFound
and the stored phase is not terminal. -/
theorem c3_terminal_never_resurrected (name ns : String) (spec : BuildSpec)
    (st : BuildStatus) (env : ReconcileEnv) :
    (env.jobLookup = JobLookup.notFound →
      (st.phase = buildPhaseSucceeded ∨ st.phase = buildPhaseFailed) →
      (reconcile name ns spec st env).build = some st ∧
      (reconcile name ns spec st env).createdJob = none ∧
      (reconcile name ns spec st env).isError = false) ∧
    ((reconcile name ns spec st env).createdJob.isSome = true →
      env.jobLookup = JobLookup.notFound ∧
      st.phase ≠ buildPhaseSucceeded ∧ st.phase ≠ buildPhaseFailed) := by
  obtain ⟨jl, cb, now⟩ := env
  cases jl with
  | lookupError => simp [reconcile]
  | notFound =>
      simp only [reconcile]
      split <;> simp_all
  | found js =>
      simp only [reconcile]
      split_ifs with h1 h2 h3 h4 <;> simp_all

/-- Witness for C3 at a concrete input: the demo build in phase Succeeded
with its job gone is left untouched. -/
theorem c3_terminal_never_resurrected_witness :
    (reconcile "demo" "default" demoSpec demoSucceeded envNotFound).build =
      some demoSucceeded ∧
    (reconcile "demo" "default" demoSpec demoSucceeded envNotFound).createdJob =
      none ∧
    (reconcile "demo" "default" demoSpec demoSucceeded envNotFound).isError =
      false :=
  (c3_terminal_never_resurrected "demo" "default" demoSpec demoSucceeded
    envNotFound).1 (by decide) (Or.inl (by decide))

/-- C7: when the observed job's counters yield a target phase equal to the
stored phase, the invocation is a complete no-op: no status update, no
callback dispatch, no deletion, no job creation, no error. -/
theorem c7_no_op_when_phase_unchanged (name ns : String) (spec : BuildSpec)
    (st : BuildStatus) (env : ReconcileEnv) (js : JobCounters)
    (hj : env.jobLookup = JobLookup.found js)
    (heq : targetPhase st js = st.phase) :
    reconcile name ns spec st env =
      { build := some st, createdJob := none, callbackResult := none,
        deleted := false, isError := false, requeue := false } := by
  obtain ⟨jl, cb, now⟩ := env
  cases hj
  simp only [reconcile]
  split_ifs with h1 <;> simp_all

/-- Witness for C7 at a concrete input: a build already stored Succeeded
whose job still reports success (the crash-between-persist-and-callback
scenario) is left untouched and no callback is dispatched. -/
theorem c7_no_op_when_phase_unchanged_witness :
    reconcile "demo" "default" demoSpecCb demoSucceeded envJobSucceeded =
      { build := some demoSucceeded, createdJob := none,
        callbackResult := none, deleted := false, isError := false,
        requeue := false } :=
  c7_no_op_when_phase_unchanged "demo" "default" demoSpecCb demoSucceeded
    envJobSucceeded { succeeded := 1, failed := 0, completionTime := some 5 }
    (by decide) (by decide)

/-- Helper: the target phase is Succeeded, Failed, or the stored phase. -/
theorem targetPhase_cases (st : BuildStatus) (js : JobCounters) :
    targetPhase st js = buildPhaseSucceeded ∨
    targetPhase st js = buildPhaseFailed ∨
    targetPhase st js = st.phase := by
  unfold targetPhase
  split_ifs <;> simp

/-- Helper: the Running status of the demo build is reachable. -/
theorem demoRunning_reachable :
    Reachable "demo" "default" demoSpec demoRunning :=
  Reachable.next initialStatus demoRunning envNotFound Reachable.init
    (by decide)

/-- Helper: the Succeeded status (job-reported time 5) of the demo build is
reachable. -/
theorem demoSucceeded_reachable :
    Reachable "demo" "default" demoSpec demoSucceeded :=
  Reachable.next demoRunning demoSucceeded envJobSucceeded
    demoRunning_reachable (by decide)

/-- Helper: the Succeeded status with no completion time is reachable (the
job reported one succeeded pod but a nil completion time). -/
theorem demoSucceededNoTime_reachable :
    Reachable "demo" "default" demoSpec demoSucceededNoTime :=
  Reachable.next demoRunning demoSucceededNoTime envJobSucceededNoTime
    demoRunning_reachable (by decide)

/-- Helper: the Failed status of the demo build is reachable from its
Succeeded status, by observing a job whose counters flipped to failed. -/
theorem demoFailed_reachable :
    Reachable "demo" "default" demoSpec demoFailed :=
  Reachable.next demoSucceeded demoFailed envJobFailed
    demoSucceeded_reachable (by decide)

/-- C2 counterexample: the claim that a stored Succeeded phase never moves
to Failed is false.  The demo build reaches the stored phase Succeeded, and
the next reconcile, observing a job whose counters report a failed pod and
no succeeded pod, moves the stored phase to Failed. -/
theorem c2_succeeded_to_failed_counterexample :
    Reachable "demo" "default" demoSpec demoSucceeded ∧
    demoSucceeded.phase = buildPhaseSucceeded ∧
    (reconcile "demo" "default" demoSpec demoSucceeded envJobFailed).build =
      some demoFailed ∧
    demoFailed.phase = buildPhaseFailed :=
  ⟨demoSucceeded_reachable, by decide, by decide, by decide⟩

/-- C2 amended: every reconcile step either keeps the stored phase, moves a
non-terminal phase to Running, or moves to Succeeded or to Failed.  In
particular the phase never returns to the initial (Pending/unset) state and
a terminal phase never becomes Running again; but when the observed job
counters change which terminal counter is positive, Succeeded→Failed and
Failed→Succeeded transitions do occur. -/
theorem c2_transitions_amended (name ns : String) (spec : BuildSpec)
    (st st1 : BuildStatus) (env : ReconcileEnv)
    (h : (reconcile name ns spec st env).build = some st1) :
    st1.phase = st.phase ∨
    (st1.phase = buildPhaseRunning ∧ st.phase ≠ buildPhaseSucceeded ∧
      st.phase ≠ buildPhaseFailed) ∨
    st1.phase = buildPhaseSucceeded ∨ st1.phase = buildPhaseFailed := by
  obtain ⟨jl, cb, now⟩ := env
  cases jl with
  | lookupError =>
      simp only [reconcile, Option.some.injEq] at h
      subst h; left; rfl
  | notFound =>
      simp only [reconcile] at h
      split_ifs at h with h1 <;> simp only [Option.some.injEq] at h <;> subst h
      · left; rfl
      · right; left
        push_neg at h1
        exact ⟨rfl, h1.1, h1.2⟩
  | found js =>
      have hc := targetPhase_cases st js
      simp only [reconcile] at h
      split_ifs at h with h1 h2 h3 h4
      · rw [Option.some.injEq] at h
        subst h
        rcases h2.1 with hS | hF
        · exact absurd hS h4
        · right; right; right; exact hF
      · rw [Option.some.injEq] at h
        subst h
        rcases h2.1 with hS | hF
        · right; right; left; exact hS
        · right; right; right; exact hF
      · rw [Option.some.injEq] at h
        subst h
        rcases hc with hS | hF | hsame
        · right; right; left; exact hS
        · right; right; right; exact hF
        · exact absurd hsame h1
      · rw [Option.some.injEq] at h
        subst h
        left; rfl

/-- Witness for C2's amended theorem at a concrete input: the first
reconcile of the demo build moves the initial status to Running. -/
theorem c2_transitions_amended_witness :
    demoRunning.phase = initialStatus.phase ∨
    (demoRunning.phase = buildPhaseRunning ∧
      initialStatus.phase ≠ buildPhaseSucceeded ∧
      initialStatus.phase ≠ buildPhaseFailed) ∨
    demoRunning.phase = buildPhaseSucceeded ∨
    demoRunning.phase = buildPhaseFailed :=
  c2_transitions_amended "demo" "default" demoSpec initialStatus demoRunning
    envNotFound (by decide)

/-- C4 counterexample: the claim that completionTime is non-nil whenever the
phase is terminal (in particular whenever a job reported succeeded-count
> 0) is false: the reconcile that observes a succeeded job reporting no
completion time stores phase Succeeded with a nil completionTime. -/
theorem c4_succeeded_without_time_counterexample :
    Reachable "demo" "default" demoSpec demoRunning ∧
    (reconcile "demo" "default" demoSpec demoRunning
        envJobSucceededNoTime).build = some demoSucceededNoTime ∧
    demoSucceededNoTime.phase = buildPhaseSucceeded ∧
    demoSucceededNoTime.completionTime = none :=
  ⟨demoRunning_reachable, by decide, by decide, by decide⟩

/-- C4 amended: in every reachable status, a non-nil completionTime implies
the phase is terminal (the converse fails: a build whose job reported
success with a nil completion time is Succeeded with completionTime nil;
when the phase becomes Failed the completionTime is always set). -/
theorem c4_completionTime_only_when_terminal (name ns : String)
    (spec : BuildSpec) (st : BuildStatus)
    (h : Reachable name ns spec st) :
    st.completionTime ≠ none →
      st.phase = buildPhaseSucceeded ∨ st.phase = buildPhaseFailed := by
  induction h with
  | init => intro hc; exact absurd rfl hc
  | next st st1 env hr hstep ih =>
      obtain ⟨jl, cb, now⟩ := env
      cases jl with
      | lookupError =>
          simp only [reconcile, Option.some.injEq] at hstep
          subst hstep; exact ih
      | notFound =>
          simp only [reconcile] at hstep
          split_ifs at hstep with h1 <;>
            simp only [Option.some.injEq] at hstep <;> subst hstep
          · exact ih
          · intro hc; exact absurd (ih hc) h1
      | found js =>
          have hc := targetPhase_cases st js
          simp only [reconcile] at hstep
          split_ifs at hstep with h1 h2 h3 h4
          · rw [Option.some.injEq] at hstep
            subst hstep
            intro _
            rcases h2.1 with hS | hF
            · left; exact hS
            · right; exact hF
          · rw [Option.some.injEq] at hstep
            subst hstep
            intro _
            rcases h2.1 with hS | hF
            · left; exact hS
            · right; exact hF
          · rw [Option.some.injEq] at hstep
            subst hstep
            intro _
            rcases hc with hS | hF | hsame
            · left; exact hS
            · right; exact hF
            · exact absurd hsame h1
          · rw [Option.some.injEq] at hstep
            subst hstep
            exact ih

/-- Witness for C4's amended theorem at a concrete input: the reachable
Failed status of the demo build has a completion time, and the theorem
yields that its phase is terminal. -/
theorem c4_completionTime_only_when_terminal_witness :
    demoFailed.phase = buildPhaseSucceeded ∨
    demoFailed.phase = buildPhaseFailed :=
  c4_completionTime_only_when_terminal "demo" "default" demoSpec demoFailed
    demoFailed_reachable (by decide)

/-- C5: evaluation at the failing input.  The job reports failed-count 1,
succeeded-count 0 and a completion time of 111; the clock reads 222.  The
code stores 222 (the current time) as completionTime, not the job-reported
111: the failed branch ignores the job-reported completion time
unconditionally, although its own comment promises the current time only as
a fallback when the job reports none. -/
theorem c5_failed_branch_ignores_job_time :
    (reconcile "demo" "default" demoSpec demoRunning
        envJobFailedWithTime).build =
      some { phase := buildPhaseFailed, jobRef := "build-demo",
             callbackStatus := "", completionTime := some 222 } ∧
    (reconcile "demo" "default" demoSpec demoRunning
        envJobFailedWithTime).build ≠
      some { phase := buildPhaseFailed, jobRef := "build-demo",
             callbackStatus := "", completionTime := some 111 } :=
  ⟨by decide, by decide⟩

set_option maxRecDepth 20000 in
/-- C6: evaluation at the failing input.  For a spec with empty revision and
empty dockerfilePath, the constructed job does contain the Dockerfile
default, but the revision default "master" appears nowhere in it: the fetch
stage clones only the context URL, with no revision argument. -/
theorem c6_revision_default_never_in_job :
    jobMentions (constructJob "demo" "default" demoSpec) "Dockerfile" = true ∧
    jobMentions (constructJob "demo" "default" demoSpec) "master" = false ∧
    (constructJob "demo" "default" demoSpec).initContainers.map
        Container.command =
      [["git", "clone", demoSpec.contextUrl, "/workspace"]] :=
  ⟨by decide, by decide, by decide⟩


/-- C8 counterexample: the claim that the dispatcher fails exactly on a
transport error or a non-2xx status and performs exactly one attempt per
invocation is false when `http.NewRequest` rejects the configured callback
URL: at that concrete input the dispatcher fails with zero HTTP attempts,
although the exchange, had it happened, would have answered status 200,
which is neither a transport error nor outside [200, 300). -/
theorem c8_bad_url_zero_attempts_counterexample :
    (sendCallback "demo" "default" demoSpec badUrlCallback
        buildPhaseSucceeded envNewRequestFails).ok = false ∧
    (sendCallback "demo" "default" demoSpec badUrlCallback
        buildPhaseSucceeded envNewRequestFails).attempts = 0 ∧
    envNewRequestFails.doResult = some 200 ∧
    ¬((200 : Nat) < 200 ∨ 300 ≤ (200 : Nat)) :=
  ⟨by decide, by decide, by decide, by decide⟩

/-- C8 amended: when `http.NewRequest` accepts the configured URL, the
dispatcher returns failure exactly when the HTTP exchange errors (timeout
included) or the response status lies outside [200, 300); it performs
exactly one attempt, on a POST request carrying a 10-second timeout, and
attaches the Authorization bearer header exactly when the auth token is
non-empty.  (When the URL is rejected the dispatcher fails with zero
attempts, as the counterexample shows.) -/
theorem c8_dispatcher_contract_amended (name ns : String) (spec : BuildSpec)
    (cb : CallbackSpec) (phase : BuildPhase) (env : HttpEnv)
    (hok : env.newRequestOk = true) :
    ((sendCallback name ns spec cb phase env).ok = false ↔
      env.doResult = none ∨
        ∃ c, env.doResult = some c ∧ (c < 200 ∨ 300 ≤ c)) ∧
    (sendCallback name ns spec cb phase env).attempts = 1 ∧
    ∃ req, (sendCallback name ns spec cb phase env).request = some req ∧
      req.timeoutSeconds = 10 ∧ req.method = "POST" ∧
      (("Authorization", "Bearer " ++ cb.authToken) ∈ req.headers ↔
        cb.authToken ≠ "") := by
  obtain ⟨nro, res, now⟩ := env
  cases nro with
  | false => simp at hok
  | true =>
      have hauth :
          (("Authorization", "Bearer " ++ cb.authToken) ∈
            (builtRequest name ns spec cb phase now).headers ↔
            cb.authToken ≠ "") := by
        unfold builtRequest
        split_ifs with he
        · simp [he]
        · simp [he]
      cases res with
      | none =>
          exact ⟨by simp [sendCallback], by simp [sendCallback],
            builtRequest name ns spec cb phase now,
            by simp [sendCallback], rfl, rfl, hauth⟩
      | some code =>
          by_cases hc : code < 200 ∨ 300 ≤ code
          · refine ⟨?_, ?_, builtRequest name ns spec cb phase now,
              ?_, rfl, rfl, hauth⟩
            · simp only [sendCallback, if_pos hc]
              simp [hc]
            · simp [sendCallback, if_pos hc]
            · simp [sendCallback, if_pos hc]
          · refine ⟨?_, ?_, builtRequest name ns spec cb phase now,
              ?_, rfl, rfl, hauth⟩
            · simp only [sendCallback, if_neg hc]
              simp [hc]
            · simp [sendCallback, if_neg hc]
            · simp [sendCallback, if_neg hc]

/-- Witness for C8's amended theorem at a concrete input: the demo callback
with a parseable URL and a 204 response dispatches successfully, with one
attempt, a 10-second timeout and the bearer header present. -/
theorem c8_dispatcher_contract_amended_witness :
    ((sendCallback "demo" "default" demoSpec demoCallback
        buildPhaseSucceeded envHttpOk).ok = false ↔
      envHttpOk.doResult = none ∨
        ∃ c, envHttpOk.doResult = some c ∧ (c < 200 ∨ 300 ≤ c)) ∧
    (sendCallback "demo" "default" demoSpec demoCallback
        buildPhaseSucceeded envHttpOk).attempts = 1 ∧
    ∃ req, (sendCallback "demo" "default" demoSpec demoCallback
        buildPhaseSucceeded envHttpOk).request = some req ∧
      req.timeoutSeconds = 10 ∧ req.method = "POST" ∧
      (("Authorization", "Bearer " ++ demoCallback.authToken) ∈ req.headers ↔
        demoCallback.authToken ≠ "") :=
  c8_dispatcher_contract_amended "demo" "default" demoSpec demoCallback
    buildPhaseSucceeded envHttpOk (by decide)

/-- C9: whenever a reconcile invocation dispatched the callback and the
dispatch failed, the invocation returns no error, deletes nothing, and the
retained BuildRequest records callbackStatus "Failed". -/
theorem c9_callback_failure_never_escalates (name ns : String)
    (spec : BuildSpec) (st : BuildStatus) (env : ReconcileEnv)
    (h : (reconcile name ns spec st env).callbackResult = some false) :
    (reconcile name ns spec st env).isError = false ∧
    (reconcile name ns spec st env).deleted = false ∧
    ∃ st1, (reconcile name ns spec st env).build = some st1 ∧
      st1.callbackStatus = "Failed" := by
  obtain ⟨jl, cb, now⟩ := env
  cases jl with
  | lookupError => simp [reconcile] at h
  | notFound =>
      simp only [reconcile] at h
      split_ifs at h
  | found js =>
      simp only [reconcile] at h ⊢
      split_ifs at h ⊢ with h1 h2 h3 h4 <;> simp_all

/-- Witness for C9 at a concrete input: the demo build with a configured
callback whose endpoint fails keeps the record with callbackStatus
"Failed", no deletion and no error. -/
theorem c9_callback_failure_never_escalates_witness :
    (reconcile "demo" "default" demoSpecCb demoRunning
        envJobSucceededCbFails).isError = false ∧
    (reconcile "demo" "default" demoSpecCb demoRunning
        envJobSucceededCbFails).deleted = false ∧
    ∃ st1, (reconcile "demo" "default" demoSpecCb demoRunning
        envJobSucceededCbFails).build = some st1 ∧
      st1.callbackStatus = "Failed" :=
  c9_callback_failure_never_escalates "demo" "default" demoSpecCb demoRunning
    envJobSucceededCbFails (by decide)

/-- C10: two build specs that differ only in the revision field yield
identical constructed jobs — the revision (and its "master" default) never
reaches the job, whose fetch stage clones only the context URL. -/
theorem c10_revision_never_reaches_job (name ns : String) (spec : BuildSpec)
    (rev : String) :
    constructJob name ns { spec with revision := rev } =
      constructJob name ns spec ∧
    (constructJob name ns spec).initContainers.map Container.command =
      [["git", "clone", spec.contextUrl, "/workspace"]] :=
  ⟨rfl, rfl⟩

end Kairos
